import Mathlib

/-!
Verification development for the chefbot-sim synthetic-data generation
subsystem: the per-kind generator settings stores, the job scheduler
start-up, and the five generator jobs (user, recipe, subscription, order,
delivery), embedded from `app/core/scheduler.py`, `app/core/tasks/*.py`
and `app/api/v1/endpoints/admin/generation_settings.py`.

Modelling conventions:
* Python floats and `Decimal` values are modelled as `ℚ`; timestamps are
  modelled as integer day counts (`timedelta(days=d)` is `+ d`).
* Randomness is an oracle passed explicitly: `random.random()` rolls are
  `ℚ` inputs, `random.choice` / `randint(a, b)` picks are `ℕ` inputs used
  modulo the size of the range, and `random.sample` takes an index oracle.
* A Python function that mutates module state and may raise `ValueError`
  is modelled as returning the final state paired with an optional error
  message: the state component records mutations performed before the
  raise, exactly as the CPython interpreter leaves them.
* The persistence layer (`SessionLocal`, repositories) is the external
  entity-store collaborator: a `Db` record of row lists.  `create` appends
  a row stamped with a fresh id; a failing create call — a declared unique
  column already holding the value (delivery order id), a non-nullable
  column left `NULL` (the order `delivery_date` the generator never
  supplies), or a keyword the model does not declare (the `gender` the
  user generator passes) — is turned into a `false` success flag by the
  generator's per-record `except` clause.
-/

namespace ChefbotSim

/-! ## Weighted sampler: model of `random.choices(outcomes, weights=w)[0]`.
The roll is a point in `[0, Σ weights)`; the draw walks the cumulative
distribution. -/

def pickWeighted {α : Type} : List (α × ℚ) → ℚ → Option α
  | [], _ => none
  | (a, w) :: rest, roll => if roll < w then some a else pickWeighted rest (roll - w)

def weightedChoice (outcomes : List String) (weights : List ℚ) (roll : ℚ) : String :=
  (pickWeighted (outcomes.zip weights) roll).getD (outcomes.getD 0 "")

/-! ## Generator settings stores (`app/core/tasks/*_generation.py`)

Each kind's module holds a mutable settings dict with hard-coded defaults.
The `update_*` functions validate and assign each supplied field in order,
raising `ValueError` on the first invalid field; a raise leaves every
assignment already performed in place.  (The interval branch additionally
calls `_update_scheduler_job`, a scheduler-side effect that does not touch
the settings dict and is modelled with the scheduler, not here.) -/

/-- `_user_generation_settings` (`user_generation.py` lines 18-21). -/
structure UserGenSettings where
  male_weight : ℚ
  interval : ℤ
  deriving Repr, DecidableEq

/-- Value returned by `get_user_generation_settings`: the dict copy plus the
derived `female_weight` entry (`user_generation.py` lines 24-29). -/
structure UserSettingsView where
  male_weight : ℚ
  female_weight : ℚ
  interval : ℤ
  deriving Repr, DecidableEq

def get_user_generation_settings (s : UserGenSettings) : UserSettingsView :=
  { male_weight := s.male_weight
    female_weight := 1 - s.male_weight
    interval := s.interval }

/-- `update_user_generation_settings` (`user_generation.py` lines 32-50).
Returns the stored settings after the call together with the `ValueError`
message if one was raised. -/
def update_user_generation_settings (s : UserGenSettings)
    (male_weight : Option ℚ) (interval : Option ℤ) :
    UserGenSettings × Option String :=
  let setInterval : UserGenSettings → UserGenSettings × Option String := fun s1 =>
    match interval with
    | some i =>
        if i < 1 then (s1, some "interval must be at least 1 second")
        else ({ s1 with interval := i }, none)
    | none => (s1, none)
  match male_weight with
  | some w =>
      if ¬ (0 ≤ w ∧ w ≤ 1) then (s, some "male_weight must be between 0.0 and 1.0")
      else setInterval { s with male_weight := w }
  | none => setInterval s

/-- `_subscription_generation_settings` (`subscription_generation.py` lines 20-23). -/
structure SubscriptionGenSettings where
  status_weights : List ℚ
  interval : ℤ
  deriving Repr, DecidableEq

def get_subscription_generation_settings (s : SubscriptionGenSettings) :
    SubscriptionGenSettings := s

/-- `update_subscription_generation_settings` (`subscription_generation.py`
lines 31-47): 3-element vector, sum within `0.01` of `1.0`. -/
def update_subscription_generation_settings (s : SubscriptionGenSettings)
    (status_weights : Option (List ℚ)) (interval : Option ℤ) :
    SubscriptionGenSettings × Option String :=
  let setInterval : SubscriptionGenSettings → SubscriptionGenSettings × Option String := fun s1 =>
    match interval with
    | some i =>
        if i < 1 then (s1, some "interval must be at least 1 second")
        else ({ s1 with interval := i }, none)
    | none => (s1, none)
  match status_weights with
  | some w =>
      if w.length ≠ 3 then (s, some "status_weights must have exactly 3 values")
      else if |w.sum - 1| > 1 / 100 then (s, some "status_weights must sum to approximately 1.0")
      else setInterval { s with status_weights := w }
  | none => setInterval s

/-- `_order_generation_settings` (`order_generation.py` lines 22-25). -/
structure OrderGenSettings where
  status_weights : List ℚ
  interval : ℤ
  deriving Repr, DecidableEq

def get_order_generation_settings (s : OrderGenSettings) : OrderGenSettings := s

/-- `update_order_generation_settings` (`order_generation.py` lines 33-48):
4-element vector, sum within `0.01` of `1.0`. -/
def update_order_generation_settings (s : OrderGenSettings)
    (status_weights : Option (List ℚ)) (interval : Option ℤ) :
    OrderGenSettings × Option String :=
  let setInterval : OrderGenSettings → OrderGenSettings × Option String := fun s1 =>
    match interval with
    | some i =>
        if i < 1 then (s1, some "interval must be at least 1 second")
        else ({ s1 with interval := i }, none)
    | none => (s1, none)
  match status_weights with
  | some w =>
      if w.length ≠ 4 then (s, some "status_weights must have exactly 4 values")
      else if |w.sum - 1| > 1 / 100 then (s, some "status_weights must sum to approximately 1.0")
      else setInterval { s with status_weights := w }
  | none => setInterval s

/-- Default subscription settings vector `[0.70, 0.15, 0.15]` with a sample
interval value (the numeric interval default lives in the absent config
module; any concrete value serves the counterexamples). -/
def subscriptionSettingsDefault : SubscriptionGenSettings :=
  { status_weights := [7/10, 3/20, 3/20], interval := 60 }

/-- Default order settings vector `[0.15, 0.20, 0.60, 0.05]`. -/
def orderSettingsDefault : OrderGenSettings :=
  { status_weights := [3/20, 1/5, 3/5, 1/20], interval := 60 }

/-- Default user settings `male_weight = 0.5`. -/
def userSettingsDefault : UserGenSettings :=
  { male_weight := 1/2, interval := 60 }

/-! ## Entity store (external persistence collaborator)

Modelled from the spec: the generation subsystem depends on a generic
per-entity persistence interface — `create(fields) → record` stamps a fresh
identifier and stores the record, `get_all(limit, filters) → records`
returns stored live rows — with a distinct constraint-violation failure on
declared unique columns (the engine and session modules are not under
`src/`; the row fields below are the ones the generators read and write). -/

/-- The columns `models/user.py` declares (lines 16-19).  There is no
`gender` column, although the user generator passes one. -/
structure UserRow where
  id : ℕ
  email : String
  first_name : String
  last_name : String
  timezone : String
  deriving Repr, DecidableEq, Inhabited

structure SubscriptionRow where
  id : ℕ
  user_id : ℕ
  status : String
  preferences : Option (String × List String)
  started_at : ℤ
  deriving Repr, DecidableEq, Inhabited

structure RecipeRow where
  id : ℕ
  name : String
  description : Option String
  calories : ℕ
  tags : List String
  price : Option ℚ
  preparation_time : ℕ
  servings : ℕ
  image_url : Option String
  deriving Repr, DecidableEq, Inhabited

/-- One `{"id": ..., "name": ...}` element of `Order.recipes`. -/
structure RecipeSnapshot where
  id : ℕ
  name : String
  deriving Repr, DecidableEq, Inhabited

/-- The columns of `models/order.py` (lines 17-22) the generation
subsystem touches.  `delivery_date` (line 20) is declared
`nullable=False` with no default; `none` models an insert that leaves it
`NULL`. -/
structure OrderRow where
  id : ℕ
  subscription_id : ℕ
  recipes : List RecipeSnapshot
  total_amount : ℚ
  delivery_date : Option ℤ
  status : String
  order_date : ℤ
  deriving Repr, DecidableEq, Inhabited

structure DeliveryRow where
  id : ℕ
  order_id : ℕ
  status : String
  expected_delivery_date : ℤ
  actual_delivery_date : Option ℤ
  tracking_number : Option String
  notes : Option String
  deriving Repr, DecidableEq, Inhabited

/-- The relational store seen through the repositories, with the id counter
the store uses to stamp new rows. -/
structure Db where
  users : List UserRow
  subscriptions : List SubscriptionRow
  recipes : List RecipeRow
  orders : List OrderRow
  deliveries : List DeliveryRow
  nextId : ℕ
  deriving Repr, DecidableEq, Inhabited

/-- Outcome of one scheduled tick: the store afterwards, how many record
creations were attempted and succeeded, the warnings logged, and the
uncaught exception if the tick raised one. -/
structure TickResult where
  db : Db
  attempted : ℕ
  created : ℕ
  warnings : List String
  exc : Option String
  deriving Repr, DecidableEq, Inhabited

/-- Modelled from the spec: the per-kind generation config read by the task
modules (the config module is not under `src/`; `enabled` and `count`
correspond to the `settings.<KIND>_GENERATION_ENABLED` and
`settings.<KIND>_GENERATION_COUNT` attributes the tasks reference). -/
structure GenConfig where
  enabled : Bool
  count : ℤ
  deriving Repr, DecidableEq, Inhabited

/-- Model of `random.sample(pool, k)`: draw `k` elements without
replacement, the oracle `pick` choosing each position. -/
def drawSample {α : Type} (dflt : α) : List α → ℕ → (ℕ → ℕ) → List α
  | _, 0, _ => []
  | pool, Nat.succ n, pick =>
      if pool.length = 0 then []
      else
        let i := pick n % pool.length
        pool.getD i dflt :: drawSample dflt (pool.eraseIdx i) n pick

/-! ## Job scheduler start-up (`app/core/scheduler.py`)

`scheduler.scheduled_job(...)` is a registration-by-import decorator: a
task module's job enters the scheduler's job table when the module is
imported.  `_register_tasks` (lines 46-51) imports exactly two task
modules — the `order_generation` import is commented out and the
`subscription_generation` / `delivery_generation` modules are never
imported there. -/

structure SchedulerState where
  running : Bool
  jobs : List String
  deriving Repr, DecidableEq, Inhabited

/-- The module import lines actually present in `_register_tasks`
(`scheduler.py` lines 46-51). -/
def task_modules_imported_by_register_tasks : List String :=
  ["app.core.tasks.user_generation", "app.core.tasks.recipe_generation"]

/-- The job id each task module registers via its
`scheduler.scheduled_job(..., id=...)` decorator when imported. -/
def scheduled_job_id_of_module (m : String) : Option String :=
  if m = "app.core.tasks.user_generation" then some "generate_users"
  else if m = "app.core.tasks.recipe_generation" then some "generate_recipes"
  else if m = "app.core.tasks.subscription_generation" then some "generate_subscriptions"
  else if m = "app.core.tasks.order_generation" then some "generate_orders"
  else if m = "app.core.tasks.delivery_generation" then some "generate_deliveries"
  else none

def _register_tasks (st : SchedulerState) : SchedulerState :=
  { st with
      jobs := st.jobs ++ task_modules_imported_by_register_tasks.filterMap scheduled_job_id_of_module }

/-- `start_scheduler` (`scheduler.py` lines 15-32): no-op when
`SCHEDULER_ENABLED` is false or the scheduler is already running; otherwise
register tasks and start. -/
def start_scheduler (schedulerEnabled : Bool) (st : SchedulerState) : SchedulerState :=
  if ¬ schedulerEnabled then st
  else if st.running then st
  else
    let st1 := _register_tasks st
    { st1 with running := true }

/-! ## Settings Facade surface (`generation_settings.py`)

The admin endpoint module delegates per kind to the task modules'
`get_*_generation_settings` / `update_*_generation_settings` functions.
Lines 10-29 import those ten names; the lists below record, straight from
the source text, which names that module imports and which module-level
names the delivery and recipe task modules actually define. -/

/-- The `(module, name)` pairs imported by
`app/api/v1/endpoints/admin/generation_settings.py` lines 10-29. -/
def generation_settings_facade_imports : List (String × String) :=
  [("app.core.tasks.delivery_generation", "get_delivery_generation_settings"),
   ("app.core.tasks.delivery_generation", "update_delivery_generation_settings"),
   ("app.core.tasks.order_generation", "get_order_generation_settings"),
   ("app.core.tasks.order_generation", "update_order_generation_settings"),
   ("app.core.tasks.recipe_generation", "get_recipe_generation_settings"),
   ("app.core.tasks.recipe_generation", "update_recipe_generation_settings"),
   ("app.core.tasks.subscription_generation", "get_subscription_generation_settings"),
   ("app.core.tasks.subscription_generation", "update_subscription_generation_settings"),
   ("app.core.tasks.user_generation", "get_user_generation_settings"),
   ("app.core.tasks.user_generation", "update_user_generation_settings")]

/-- Every module-level name defined by `app/core/tasks/delivery_generation.py`
(the whole file: lines 1-129). -/
def delivery_generation_module_defs : List String :=
  ["logger", "fake", "DELIVERY_STATUSES", "STATUS_WEIGHTS",
   "_create_delivery", "generate_deliveries_task"]

/-- Every module-level name defined by `app/core/tasks/recipe_generation.py`
(the whole file: lines 1-157). -/
def recipe_generation_module_defs : List String :=
  ["logger", "fake", "RECIPE_TAGS", "RECIPE_NAME_TEMPLATES", "PROTEINS",
   "CUISINES", "COOKING_METHODS", "SIDES", "DISH_TYPES", "FLAVORS", "BASES",
   "STYLES", "ACCOMPANIMENTS", "_generate_recipe_name", "_generate_tags",
   "_create_recipe", "generate_recipes_task"]

/-! ## User generator (`app/core/tasks/user_generation.py`) -/

def GENDERS : List String := ["Male", "Female"]

/-- Random draws consumed by one `_create_user` call: the gender roll and
the faker-synthesized strings. -/
structure URand where
  genderRoll : ℚ
  male_first_name : String
  female_first_name : String
  last_name : String
  tz : String
  email : String
  deriving Repr, Inhabited

/-- `_create_user` (lines 65-88): draw gender from the dynamic
`male_weight`, synthesize names, and call
`user_repo.create(email=..., first_name=..., last_name=..., timezone=...,
gender=gender)`.  `models/user.py` declares no `gender` column, so the
model constructor inside `BaseRepository.create` raises `TypeError` — not
an `IntegrityError`, so nothing in `create` catches it — which the
function's own `except` clause turns into `false`: no user row is ever
inserted. -/
def _create_user (db : Db) (us : UserGenSettings) (r : URand) : Db × Bool :=
  let male_weight := us.male_weight
  let female_weight := 1 - male_weight
  let weights := [male_weight, female_weight]
  let gender := weightedChoice GENDERS weights r.genderRoll
  let first_name := if gender = "Male" then r.male_first_name else r.female_first_name
  (db, false)

/-- The `sum(_create_user(...) for _ in range(n))` loop of
`generate_users_task`, invocation `k` drawing `rnd k`. -/
def processUsers : Db → UserGenSettings → (ℕ → URand) → ℕ → ℕ → Db × ℕ
  | db, _, _, 0, _ => (db, 0)
  | db, us, rnd, Nat.succ n, k =>
      let res := _create_user db us (rnd k)
      let rest := processUsers res.1 us rnd n (k + 1)
      (rest.1, (if res.2 then 1 else 0) + rest.2)

/-- `generate_users_task` (lines 98-114): returns immediately when
`USER_GENERATION_ENABLED` is false or `USER_GENERATION_COUNT ≤ 0`. -/
def generate_users_task (cfg : GenConfig) (us : UserGenSettings) (db : Db)
    (rnd : ℕ → URand) : TickResult :=
  if ¬ cfg.enabled ∨ cfg.count ≤ 0 then
    { db := db, attempted := 0, created := 0, warnings := [], exc := none }
  else
    let n := cfg.count.toNat
    let res := processUsers db us rnd n 0
    { db := res.1, attempted := n, created := res.2, warnings := [], exc := none }

/-! ## Recipe generator (`app/core/tasks/recipe_generation.py`) -/

def RECIPE_TAGS : List String :=
  ["Keto", "Vegetarian", "Vegan", "Gluten-Free", "Dairy-Free",
   "Family-Friendly", "Quick", "Comfort Food", "Healthy", "Low-Carb",
   "High-Protein", "Mediterranean", "Asian", "Italian", "Mexican", "Spicy",
   "Kid-Friendly", "Date Night", "Meal Prep", "Pescatarian"]

def PROTEINS : List String :=
  ["Chicken", "Salmon", "Beef", "Turkey", "Pork", "Tofu", "Shrimp", "Cod"]

def CUISINES : List String :=
  ["Thai", "Italian", "Mexican", "Mediterranean", "Asian", "Indian", "French", "American"]

def COOKING_METHODS : List String :=
  ["Teriyaki", "Herb-Crusted", "Balsamic", "Lemon", "Garlic", "Spicy"]

def SIDES : List String :=
  ["Rice", "Quinoa", "Pasta", "Potatoes", "Vegetables", "Salad", "Couscous"]

def DISH_TYPES : List String :=
  ["Stir-Fry", "Skillet", "Casserole", "Wrap", "Pasta", "Bowl", "Tacos"]

def FLAVORS : List String :=
  ["Honey", "Sesame", "Cilantro", "Rosemary", "Basil", "Ginger"]

def BASES : List String :=
  ["Pasta", "Rice Bowl", "Quinoa Bowl", "Noodles", "Salad"]

def STYLES : List String :=
  ["Classic", "Herbed", "Spiced", "Marinated", "Glazed"]

def ACCOMPANIMENTS : List String :=
  ["Asparagus", "Broccoli", "Green Beans", "Sweet Potatoes", "Brussels Sprouts"]

/-- The nine pool picks `template.format(...)` receives. -/
structure NamePick where
  protein : String
  cuisine : String
  cooking_method : String
  side : String
  dish_type : String
  flavor : String
  base : String
  style : String
  accompaniment : String
  deriving Repr, Inhabited

/-- `RECIPE_NAME_TEMPLATES` (lines 41-50), each template as the string it
formats from the picks. -/
def RECIPE_NAME_TEMPLATES : List (NamePick → String) :=
  [fun p => p.protein ++ " " ++ p.cuisine ++ " Bowl",
   fun p => p.protein ++ " " ++ p.cooking_method ++ " with " ++ p.side,
   fun p => p.cuisine ++ " " ++ p.protein ++ " " ++ p.dish_type,
   fun p => p.flavor ++ " " ++ p.protein ++ " " ++ p.base,
   fun p => p.protein ++ " " ++ p.style ++ " " ++ p.cuisine,
   fun p => "Grilled " ++ p.protein ++ " " ++ p.side,
   fun p => "Pan-Seared " ++ p.protein ++ " " ++ p.accompaniment,
   fun p => p.cuisine ++ " " ++ p.protein ++ " Skillet"]

/-- Random draws consumed by one `_create_recipe` call. -/
structure RRand where
  tmplIdx : ℕ
  proteinIdx : ℕ
  cuisineIdx : ℕ
  cookingMethodIdx : ℕ
  sideIdx : ℕ
  dishTypeIdx : ℕ
  flavorIdx : ℕ
  baseIdx : ℕ
  styleIdx : ℕ
  accompanimentIdx : ℕ
  descRoll : ℚ
  descText : String
  caloriesRoll : ℕ
  numTagsRoll : ℕ
  tagPick : ℕ → ℕ
  priceAmount : ℚ
  prepRoll : ℕ
  servingsRoll : ℕ
  imageRoll : ℚ
  imageUrl : String
  deriving Inhabited

/-- `_generate_recipe_name` (lines 63-77): pick a template and format it
with one pick from each pool. -/
def _generate_recipe_name (r : RRand) : String :=
  let p : NamePick :=
    { protein := PROTEINS.getD (r.proteinIdx % PROTEINS.length) ""
      cuisine := CUISINES.getD (r.cuisineIdx % CUISINES.length) ""
      cooking_method := COOKING_METHODS.getD (r.cookingMethodIdx % COOKING_METHODS.length) ""
      side := SIDES.getD (r.sideIdx % SIDES.length) ""
      dish_type := DISH_TYPES.getD (r.dishTypeIdx % DISH_TYPES.length) ""
      flavor := FLAVORS.getD (r.flavorIdx % FLAVORS.length) ""
      base := BASES.getD (r.baseIdx % BASES.length) ""
      style := STYLES.getD (r.styleIdx % STYLES.length) ""
      accompaniment := ACCOMPANIMENTS.getD (r.accompanimentIdx % ACCOMPANIMENTS.length) "" }
  (RECIPE_NAME_TEMPLATES.getD (r.tmplIdx % RECIPE_NAME_TEMPLATES.length) (fun q => q.protein)) p

/-- `_generate_tags` (lines 80-83): `random.sample(RECIPE_TAGS, randint(1, 4))`. -/
def _generate_tags (r : RRand) : List String :=
  drawSample "" RECIPE_TAGS (1 + r.numTagsRoll % 4) r.tagPick

/-- `_create_recipe` (lines 86-130).  `recipes` has no unique constraint, so
the store create succeeds. -/
def _create_recipe (db : Db) (r : RRand) : Db × Bool :=
  let name := _generate_recipe_name r
  let description := if r.descRoll < 7/10 then some r.descText else none
  let calories := 300 + r.caloriesRoll % 501
  let tags := _generate_tags r
  let price := some r.priceAmount
  let preparation_time := 20 + r.prepRoll % 41
  let servings := 2 + r.servingsRoll % 5
  let image_url := if r.imageRoll < 6/10 then some r.imageUrl else none
  ({ db with
      recipes := db.recipes ++
        [{ id := db.nextId, name := name, description := description,
           calories := calories, tags := tags, price := price,
           preparation_time := preparation_time, servings := servings,
           image_url := image_url }],
      nextId := db.nextId + 1 },
    true)

def processRecipes : Db → (ℕ → RRand) → ℕ → ℕ → Db × ℕ
  | db, _, 0, _ => (db, 0)
  | db, rnd, Nat.succ n, k =>
      let res := _create_recipe db (rnd k)
      let rest := processRecipes res.1 rnd n (k + 1)
      (rest.1, (if res.2 then 1 else 0) + rest.2)

/-- `generate_recipes_task` (lines 140-156): returns immediately when
`RECIPE_GENERATION_ENABLED` is false or `RECIPE_GENERATION_COUNT ≤ 0`. -/
def generate_recipes_task (cfg : GenConfig) (db : Db) (rnd : ℕ → RRand) : TickResult :=
  if ¬ cfg.enabled ∨ cfg.count ≤ 0 then
    { db := db, attempted := 0, created := 0, warnings := [], exc := none }
  else
    let n := cfg.count.toNat
    let res := processRecipes db rnd n 0
    { db := res.1, attempted := n, created := res.2, warnings := [], exc := none }

/-! ## Subscription generator (`app/core/tasks/subscription_generation.py`) -/

def SUBSCRIPTION_STATUSES : List String := ["Active", "Paused", "Cancelled"]

/-- `PREFERENCE_OPTIONS` (lines 62-70): six one-entry preference dicts and a
trailing `None`. -/
def PREFERENCE_OPTIONS : List (Option (String × List String)) :=
  [some ("dietary_restrictions", ["No Fish"]),
   some ("dietary_restrictions", ["Vegan"]),
   some ("dietary_restrictions", ["Vegetarian"]),
   some ("allergies", ["Nuts"]),
   some ("allergies", ["Dairy"]),
   some ("preferences", ["Spicy"]),
   none]

/-- Random draws consumed by one `_create_subscription` call. -/
structure SRand where
  userIdx : ℕ
  statusRoll : ℚ
  prefRoll : ℚ
  prefIdx : ℕ
  daysAgo : ℕ
  deriving Repr, Inhabited

/-- `_create_subscription` (lines 73-104): pick a random user, draw status
from the dynamic weights, optionally attach one non-`None` preference
template, backdate `started_at` by `randint(0, 365)` days from `now`. -/
def _create_subscription (db : Db) (ss : SubscriptionGenSettings)
    (available_users : List UserRow) (now : ℤ) (r : SRand) : Db × Bool :=
  let user := available_users.getD (r.userIdx % available_users.length) default
  let weights := ss.status_weights
  let status := weightedChoice SUBSCRIPTION_STATUSES weights r.statusRoll
  let preferences :=
    if r.prefRoll < 1/2 then
      let opts := PREFERENCE_OPTIONS.filterMap id
      some (opts.getD (r.prefIdx % opts.length) ("", []))
    else none
  let started_at := now - (r.daysAgo % 366 : ℕ)
  ({ db with
      subscriptions := db.subscriptions ++
        [{ id := db.nextId, user_id := user.id, status := status,
           preferences := preferences, started_at := started_at }],
      nextId := db.nextId + 1 },
    true)

def processSubscriptions :
    Db → SubscriptionGenSettings → List UserRow → ℤ → (ℕ → SRand) → ℕ → ℕ → Db × ℕ
  | db, _, _, _, _, 0, _ => (db, 0)
  | db, ss, users, now, rnd, Nat.succ n, k =>
      let res := _create_subscription db ss users now (rnd k)
      let rest := processSubscriptions res.1 ss users now rnd n (k + 1)
      (rest.1, (if res.2 then 1 else 0) + rest.2)

/-- `generate_subscriptions_task` (lines 114-136).  Unlike the user, recipe
and order tasks, the body has no `SUBSCRIPTION_GENERATION_ENABLED` /
`COUNT <= 0` guard: it only reads `cfg.count` as the loop bound
(`range` of a non-positive count is empty). -/
def generate_subscriptions_task (cfg : GenConfig) (ss : SubscriptionGenSettings)
    (db : Db) (now : ℤ) (rnd : ℕ → SRand) : TickResult :=
  let available_users := db.users.take 1000
  if available_users.isEmpty then
    { db := db, attempted := 0, created := 0,
      warnings := ["No users found. Skipping subscription generation."], exc := none }
  else
    let n := cfg.count.toNat
    let res := processSubscriptions db ss available_users now rnd n 0
    { db := res.1, attempted := n, created := res.2, warnings := [], exc := none }

/-! ## Order generator (`app/core/tasks/order_generation.py`) -/

def ORDER_STATUSES : List String := ["pending", "shipped", "delivered", "cancelled"]

/-- `_select_weighted_status` (lines 63-66). -/
def _select_weighted_status (os : OrderGenSettings) (roll : ℚ) : String :=
  weightedChoice ORDER_STATUSES os.status_weights roll

/-- The `total` accumulated by `_calculate_total_amount` before its
fallback check (lines 71-77): for each snapshot, look its id up in the
price dict and add the price when the looked-up value is truthy. -/
def _order_raw_total (recipes : List RecipeSnapshot) (recipe_prices : List (ℕ × ℚ)) : ℚ :=
  recipes.foldl
    (fun t rc =>
      match (recipe_prices.find? (fun pr => pr.1 == rc.id)).map Prod.snd with
      | some p => if p ≠ 0 then t + p else t
      | none => t)
    0

/-- What one snapshot adds to the accumulating `total` of
`_calculate_total_amount`: the looked-up price when truthy, else nothing. -/
def priceContrib (recipe_prices : List (ℕ × ℚ)) (rc : RecipeSnapshot) : ℚ :=
  match (recipe_prices.find? (fun pr => pr.1 == rc.id)).map Prod.snd with
  | some p => if p ≠ 0 then p else 0
  | none => 0

/-- `_calculate_total_amount` (lines 69-82): if no prices accumulated, use
the random fallback amount `round(uniform(20.00, 100.00), 2)`. -/
def _calculate_total_amount (recipes : List RecipeSnapshot)
    (recipe_prices : List (ℕ × ℚ)) (fallbackAmount : ℚ) : ℚ :=
  let total := _order_raw_total recipes recipe_prices
  if total = 0 then fallbackAmount else total

/-- Random draws consumed by one `_create_order` call. -/
structure ORand where
  subIdx : ℕ
  numRecipesRoll : ℕ
  recipePick : ℕ → ℕ
  fallbackAmount : ℚ
  statusRoll : ℚ
  daysAgo : ℕ
  deriving Inhabited

/-- `selected_recipes` of `_create_order` (lines 97-99):
`random.sample(available_recipes, randint(1, min(4, len(available_recipes))))`. -/
def selectedRecipesOf (available_recipes : List RecipeRow) (r : ORand) : List RecipeRow :=
  let num_recipes := 1 + r.numRecipesRoll % (min 4 available_recipes.length)
  drawSample default available_recipes num_recipes r.recipePick

/-- One element of the `recipes_json` comprehension of `_create_order`
(lines 102-105): `{"id": str(recipe.id), "name": recipe.name}`. -/
def snapshotOf (rc : RecipeRow) : RecipeSnapshot := { id := rc.id, name := rc.name }

/-- One entry of the `recipe_prices` dict comprehension of `_create_order`
(line 108): `{str(recipe.id): recipe.price ... if recipe.price}` — the
entry exists exactly when the price is truthy (neither `None` nor `0`). -/
def pricePairOf (rc : RecipeRow) : Option (ℕ × ℚ) :=
  match rc.price with
  | some p => if p ≠ 0 then some (rc.id, p) else none
  | none => none

/-- `BaseRepository.create` for orders (`repository.py` lines 33-53):
insert the row built from the supplied fields.  `orders.delivery_date`
(`models/order.py` line 20) is non-nullable with no default, so an insert
leaving it `NULL` raises `IntegrityError`, which `create` converts to
`ConflictError`. -/
def order_create (db : Db) (row : OrderRow) : Db × Bool :=
  if row.delivery_date.isNone then (db, false)
  else ({ db with orders := db.orders ++ [row], nextId := db.nextId + 1 }, true)

/-- `_create_order` (lines 85-130): pick a random active subscription,
sample recipes, snapshot id and name, build the truthy-price dict, compute
the total, draw a status, backdate the order `randint(0, 90)` days, and
call `order_repo.create(subscription_id=..., recipes=..., total_amount=...,
status=..., order_date=...)` — supplying no `delivery_date`, so the insert
fails the NOT NULL constraint and the `except` clause returns `false`. -/
def _create_order (db : Db) (os : OrderGenSettings)
    (active_subscriptions : List SubscriptionRow)
    (available_recipes : List RecipeRow) (now : ℤ) (r : ORand) : Db × Bool :=
  let subscription :=
    active_subscriptions.getD (r.subIdx % active_subscriptions.length) default
  let selected_recipes := selectedRecipesOf available_recipes r
  let recipes_json := selected_recipes.map snapshotOf
  let recipe_prices := selected_recipes.filterMap pricePairOf
  let total_amount := _calculate_total_amount recipes_json recipe_prices r.fallbackAmount
  let status := _select_weighted_status os r.statusRoll
  let order_date := now - (r.daysAgo % 91 : ℕ)
  order_create db
    { id := db.nextId, subscription_id := subscription.id,
      recipes := recipes_json, total_amount := total_amount,
      delivery_date := none, status := status, order_date := order_date }

def processOrders :
    Db → OrderGenSettings → List SubscriptionRow → List RecipeRow → ℤ → (ℕ → ORand) → ℕ → ℕ → Db × ℕ
  | db, _, _, _, _, _, 0, _ => (db, 0)
  | db, os, subs, rcps, now, rnd, Nat.succ n, k =>
      let res := _create_order db os subs rcps now (rnd k)
      let rest := processOrders res.1 os subs rcps now rnd n (k + 1)
      (rest.1, (if res.2 then 1 else 0) + rest.2)

/-- `generate_orders_task` (lines 140-177): guard on
`ORDER_GENERATION_ENABLED` / `COUNT`, then require at least one Active
subscription and at least one recipe, warning and returning otherwise. -/
def generate_orders_task (cfg : GenConfig) (os : OrderGenSettings) (db : Db)
    (now : ℤ) (rnd : ℕ → ORand) : TickResult :=
  if ¬ cfg.enabled ∨ cfg.count ≤ 0 then
    { db := db, attempted := 0, created := 0, warnings := [], exc := none }
  else
    let active_subscriptions :=
      (db.subscriptions.filter (fun s => s.status == "Active")).take 1000
    if active_subscriptions.isEmpty then
      { db := db, attempted := 0, created := 0,
        warnings := ["No active subscriptions found. Skipping order generation."], exc := none }
    else
      let available_recipes := db.recipes.take 1000
      if available_recipes.isEmpty then
        { db := db, attempted := 0, created := 0,
          warnings := ["No recipes found. Skipping order generation."], exc := none }
      else
        let n := cfg.count.toNat
        let res := processOrders db os active_subscriptions available_recipes now rnd n 0
        { db := res.1, attempted := n, created := res.2, warnings := [], exc := none }

/-! ## Delivery generator (`app/core/tasks/delivery_generation.py`) -/

def DELIVERY_STATUSES : List String := ["delivered", "delayed", "failed", "in_transit"]

/-- `STATUS_WEIGHTS` (line 18): `[0.60, 0.15, 0.05, 0.20]` — a module
constant, not a settings-store entry. -/
def STATUS_WEIGHTS : List ℚ := [3/5, 3/20, 1/20, 1/5]

/-- `note_options` (lines 59-65). -/
def NOTE_OPTIONS : List String :=
  ["Left at front door", "Left with neighbor", "Delivered to mailbox",
   "Customer complaint", "Package damaged"]

/-- Random draws consumed by one `_create_delivery` call. -/
structure DRand where
  statusRoll : ℚ
  daysAfterRoll : ℕ
  deliveredOffsetRoll : ℕ
  delayedOffsetRoll : ℕ
  trackRoll : ℚ
  trackNumRoll : ℕ
  notesRoll : ℚ
  noteIdx : ℕ
  deriving Repr, Inhabited

/-- `delivery_repo.get_by_order_id` (`delivery_repository.py` lines 21-31):
first stored delivery whose `order_id` matches (no soft-delete filter). -/
def get_by_order_id (db : Db) (oid : ℕ) : Option DeliveryRow :=
  db.deliveries.find? (fun d => d.order_id == oid)

/-- `_create_delivery` (lines 21-79): skip when a delivery already exists
for the order; otherwise draw status / dates / tracking / notes and create.
The `deliveries.order_id` column is unique, so the store create raises a
constraint violation if a matching row exists; the function's `except`
clause turns that into `false`. -/
def _create_delivery (db : Db) (order : OrderRow) (r : DRand) : Db × Bool :=
  match get_by_order_id db order.id with
  | some _ => (db, false)
  | none =>
      let status := weightedChoice DELIVERY_STATUSES STATUS_WEIGHTS r.statusRoll
      let days_after_order : ℤ := 2 + (r.daysAfterRoll % 4 : ℕ)
      let expected_delivery_date := order.order_date + days_after_order
      let actual_delivery_date : Option ℤ :=
        if status = "delivered" then
          some (expected_delivery_date + (-1 + (r.deliveredOffsetRoll % 3 : ℕ)))
        else if status = "delayed" then
          some (expected_delivery_date + (1 + (r.delayedOffsetRoll % 3 : ℕ)))
        else none
      let tracking_number : Option String :=
        if r.trackRoll < 7/10 then
          some ("TRACK" ++ toString (100000 + r.trackNumRoll % 900000))
        else none
      let notes : Option String :=
        if r.notesRoll < 3/10 then
          some (NOTE_OPTIONS.getD (r.noteIdx % NOTE_OPTIONS.length) "")
        else none
      if db.deliveries.any (fun d => d.order_id == order.id) then (db, false)
      else
        ({ db with
            deliveries := db.deliveries ++
              [{ id := db.nextId, order_id := order.id, status := status,
                 expected_delivery_date := expected_delivery_date,
                 actual_delivery_date := actual_delivery_date,
                 tracking_number := tracking_number, notes := notes }],
            nextId := db.nextId + 1 },
          true)

/-- The `sum(_create_delivery(delivery_repo, order) for order in
selected_orders)` loop: each order's creation re-checks the evolving
store. -/
def processDeliveries : Db → List OrderRow → (ℕ → DRand) → ℕ → Db × ℕ
  | db, [], _, _ => (db, 0)
  | db, o :: rest, rnd, k =>
      let res := _create_delivery db o (rnd k)
      let more := processDeliveries res.1 rest rnd (k + 1)
      (more.1, (if res.2 then 1 else 0) + more.2)

/-- `generate_deliveries_task` (lines 89-128).  The body has no
`DELIVERY_GENERATION_ENABLED` / `COUNT <= 0` guard; it reads only
`cfg.count` inside `min(...)`.  `random.sample` raises `ValueError` when
its requested size is negative, which no handler in the task catches. -/
def generate_deliveries_task (cfg : GenConfig) (db : Db) (rnd : ℕ → DRand)
    (samplePick : ℕ → ℕ) : TickResult :=
  let orders := db.orders.take 1000
  if orders.isEmpty then
    { db := db, attempted := 0, created := 0,
      warnings := ["No orders found. Skipping delivery generation."], exc := none }
  else
    let orders_without_delivery :=
      orders.filter (fun o => (get_by_order_id db o.id).isNone)
    if orders_without_delivery.isEmpty then
      { db := db, attempted := 0, created := 0,
        warnings := ["All orders already have deliveries. Skipping delivery generation."],
        exc := none }
    else
      let k := min cfg.count (orders_without_delivery.length : ℤ)
      if k < 0 then
        { db := db, attempted := 0, created := 0, warnings := [],
          exc := some "ValueError: Sample larger than population or is negative" }
      else
        let selected_orders := drawSample default orders_without_delivery k.toNat samplePick
        let res := processDeliveries db selected_orders rnd 0
        { db := res.1, attempted := selected_orders.length, created := res.2,
          warnings := [], exc := none }

/-! ## Object-level model of the settings `get` (for the snapshot claim)

The value-level `get_*_generation_settings` above captures what the caller
reads; this model captures what the caller can mutate.  In CPython the
settings dict's `"status_weights"` value is a heap-allocated list and
`dict.copy()` is shallow: the copy is a fresh dict whose keys are bound to
the same objects.  A heap maps references to list contents; the dict holds
a reference to its weight vector. -/

structure Heap where
  cells : List (List ℚ)
  deriving Repr, DecidableEq

def Heap.read (h : Heap) (r : ℕ) : List ℚ := h.cells.getD r []

/-- In-place mutation of the list object behind reference `r`
(e.g. `returned["status_weights"][0] = x` or `.append(x)`). -/
def Heap.write (h : Heap) (r : ℕ) (v : List ℚ) : Heap := ⟨h.cells.set r v⟩

/-- Allocation of a fresh list object (e.g. building a new Python list). -/
def Heap.alloc (h : Heap) (v : List ℚ) : Heap × ℕ := (⟨h.cells ++ [v]⟩, h.cells.length)

/-- The `_order_generation_settings` dict at object level: key
`"status_weights"` bound to a list reference, key `"interval"` to an
immutable int. -/
structure OrderSettingsObj where
  status_weights_ref : ℕ
  interval : ℤ
  deriving Repr, DecidableEq

/-- `dict.copy()`: a fresh dict with the same value bindings — the list
reference is shared, the immutable int is copied. -/
def dict_copy (d : OrderSettingsObj) : OrderSettingsObj :=
  { status_weights_ref := d.status_weights_ref, interval := d.interval }

/-- `get_order_generation_settings` at object level
(`order_generation.py` lines 28-30): `return _order_generation_settings.copy()`. -/
def get_order_generation_settings_obj (store : OrderSettingsObj) : OrderSettingsObj :=
  dict_copy store

/-- The values an observer of a settings dict reads: the weight vector's
contents and the interval. -/
def observe_order_settings (h : Heap) (d : OrderSettingsObj) : List ℚ × ℤ :=
  (h.read d.status_weights_ref, d.interval)

/-! ## Concrete fixtures used to instantiate the theorems -/

def userRow1 : UserRow :=
  { id := 1, email := "ada@example.com", first_name := "Ada",
    last_name := "Lovelace", timezone := "UTC" }

/-- A store holding exactly one user. -/
def dbOneUser : Db :=
  { users := [userRow1], subscriptions := [], recipes := [], orders := [],
    deliveries := [], nextId := 2 }

def srand0 : SRand :=
  { userIdx := 0, statusRoll := 0, prefRoll := 1, prefIdx := 0, daysAgo := 0 }

def drand0 : DRand :=
  { statusRoll := 0, daysAfterRoll := 0, deliveredOffsetRoll := 0,
    delayedOffsetRoll := 0, trackRoll := 1, trackNumRoll := 0, notesRoll := 1,
    noteIdx := 0 }

/-- A store holding one order and no deliveries. -/
def dbOneOrder : Db :=
  { users := [], subscriptions := [], recipes := [],
    orders := [{ id := 10, subscription_id := 1, recipes := [],
                 total_amount := 30, delivery_date := some 5,
                 status := "pending", order_date := 0 }],
    deliveries := [], nextId := 11 }

def urand0 : URand :=
  { genderRoll := 0, male_first_name := "Alan", female_first_name := "Ada",
    last_name := "Turing", tz := "UTC", email := "alan@example.com" }

def rrand0 : RRand :=
  { tmplIdx := 0, proteinIdx := 0, cuisineIdx := 0, cookingMethodIdx := 0,
    sideIdx := 0, dishTypeIdx := 0, flavorIdx := 0, baseIdx := 0,
    styleIdx := 0, accompanimentIdx := 0, descRoll := 1, descText := "",
    caloriesRoll := 0, numTagsRoll := 0, tagPick := fun _ => 0,
    priceAmount := 20, prepRoll := 0, servingsRoll := 0, imageRoll := 1,
    imageUrl := "" }

/-- End-to-end scenario B store: one Active subscription, one recipe priced
`20.00`. -/
def dbScenarioB : Db :=
  { users := [],
    subscriptions := [{ id := 1, user_id := 0, status := "Active",
                        preferences := none, started_at := 0 }],
    recipes := [{ id := 2, name := "Pasta Carbonara", description := none,
                  calories := 500, tags := [], price := some 20,
                  preparation_time := 30, servings := 2, image_url := none }],
    orders := [], deliveries := [], nextId := 3 }

def orandB : ORand :=
  { subIdx := 0, numRecipesRoll := 0, recipePick := fun _ => 0,
    fallbackAmount := 50, statusRoll := 0, daysAgo := 0 }

/-- A store with one Active subscription and no recipes. -/
def dbActiveNoRecipes : Db :=
  { users := [],
    subscriptions := [{ id := 1, user_id := 0, status := "Active",
                        preferences := none, started_at := 0 }],
    recipes := [], orders := [], deliveries := [], nextId := 2 }

/-- A store whose single order already has a delivery. -/
def dbOrderDelivered : Db :=
  { users := [], subscriptions := [], recipes := [],
    orders := [{ id := 10, subscription_id := 1, recipes := [],
                 total_amount := 30, delivery_date := some 3,
                 status := "pending", order_date := 0 }],
    deliveries := [{ id := 20, order_id := 10, status := "delivered",
                     expected_delivery_date := 3, actual_delivery_date := some 3,
                     tracking_number := none, notes := none }],
    nextId := 21 }

/-- A heap with one allocated list: the order settings default weights. -/
def heap0 : Heap := ⟨[[3/20, 1/5, 3/5, 1/20]]⟩

/-- The order settings dict, its weight vector at reference `0`. -/
def store0 : OrderSettingsObj := { status_weights_ref := 0, interval := 30 }

/-! # Theorems -/

/-- **C1** (code bug): the claim says the Settings Facade exposes working
`get` / `update` operations for every kind in
{user, recipe, subscription, order, delivery}, with the delivery
generator's 4-element status weight vector readable and updatable at
runtime.  The facade module indeed imports a get and an update function
for all five kinds, but the delivery and recipe task modules define
neither operation (delivery's `STATUS_WEIGHTS` is a bare module constant),
so importing the facade raises `ImportError` and no delivery settings
store exists to delegate to. -/
theorem facade_requires_settings_ops_missing_from_delivery_and_recipe_modules :
    ("app.core.tasks.delivery_generation", "get_delivery_generation_settings")
        ∈ generation_settings_facade_imports ∧
    ("app.core.tasks.delivery_generation", "update_delivery_generation_settings")
        ∈ generation_settings_facade_imports ∧
    "get_delivery_generation_settings" ∉ delivery_generation_module_defs ∧
    "update_delivery_generation_settings" ∉ delivery_generation_module_defs ∧
    "get_recipe_generation_settings" ∉ recipe_generation_module_defs ∧
    "update_recipe_generation_settings" ∉ recipe_generation_module_defs := by
  decide

/-- **C2** (code bug): the claim says `start()` is a no-op when globally
disabled or already running — which holds — and otherwise registers all
five generator jobs.  In fact `_register_tasks` imports only the user and
recipe task modules (the order import is commented out; subscription and
delivery are absent), so starting from a fresh state registers exactly
`generate_users` and `generate_recipes` and the other three jobs never
tick. -/
theorem start_scheduler_registers_only_user_and_recipe_jobs :
    start_scheduler false { running := false, jobs := [] } =
      { running := false, jobs := [] } ∧
    start_scheduler true { running := true, jobs := [] } =
      { running := true, jobs := [] } ∧
    (start_scheduler true { running := false, jobs := [] }).running = true ∧
    (start_scheduler true { running := false, jobs := [] }).jobs =
      ["generate_users", "generate_recipes"] ∧
    "generate_subscriptions" ∉ (start_scheduler true { running := false, jobs := [] }).jobs ∧
    "generate_orders" ∉ (start_scheduler true { running := false, jobs := [] }).jobs ∧
    "generate_deliveries" ∉ (start_scheduler true { running := false, jobs := [] }).jobs := by
  decide

/-- **C3** (counterexample): the claim says a settings-update call with any
invalid supplied field leaves the stored settings exactly as before the
call.  Calling the subscription update with a valid weight vector
`[0.3, 0.3, 0.4]` and the invalid interval `0` raises the interval
`ValueError`, yet the stored weights have already been replaced: the call
is partially applied. -/
theorem subscription_update_partial_application_counterexample :
    (update_subscription_generation_settings subscriptionSettingsDefault
        (some [3/10, 3/10, 4/10]) (some 0)).2.isSome = true ∧
    (update_subscription_generation_settings subscriptionSettingsDefault
        (some [3/10, 3/10, 4/10]) (some 0)).1 ≠ subscriptionSettingsDefault ∧
    (update_subscription_generation_settings subscriptionSettingsDefault
        (some [3/10, 3/10, 4/10]) (some 0)).1.status_weights = [3/10, 3/10, 4/10] := by
  have hsum : |(3/10 : ℚ) + (3/10 + 4/10) - 1| ≤ (100 : ℚ)⁻¹ := by
    rw [show (3/10 : ℚ) + (3/10 + 4/10) - 1 = 0 by norm_num, abs_zero]
    norm_num
  have hcall : update_subscription_generation_settings subscriptionSettingsDefault
      (some [3/10, 3/10, 4/10]) (some 0) =
      ({ status_weights := [3/10, 3/10, 4/10], interval := 60 },
        some "interval must be at least 1 second") := by
    simp [update_subscription_generation_settings, subscriptionSettingsDefault, hsum]
  refine ⟨by rw [hcall]; rfl, ?_, by rw [hcall]⟩
  rw [hcall]
  intro hEq
  have h2 := congrArg SubscriptionGenSettings.status_weights hEq
  simp [subscriptionSettingsDefault] at h2
  norm_num at h2

/-- **C3** (amended): an invalid supplied field is itself never applied —
a call whose weight field is invalid fails leaving the settings fully
untouched, and a call whose interval is invalid fails leaving the stored
interval untouched — but per-call atomicity does not hold: when a valid
weight field accompanies an invalid interval, the weight assignment
already performed survives the failed call (see the counterexample). -/
theorem settings_update_invalid_field_never_applied
    (s : SubscriptionGenSettings) (t : OrderGenSettings) (u : UserGenSettings)
    (w : List ℚ) (ow : Option (List ℚ)) (mw : ℚ) (omw : Option ℚ)
    (i : ℤ) (oi : Option ℤ) :
    (¬ (w.length = 3 ∧ |w.sum - 1| ≤ 1/100) →
      (update_subscription_generation_settings s (some w) oi).1 = s ∧
      (update_subscription_generation_settings s (some w) oi).2.isSome = true) ∧
    (i < 1 →
      (update_subscription_generation_settings s ow (some i)).1.interval = s.interval ∧
      (update_subscription_generation_settings s ow (some i)).2.isSome = true) ∧
    (¬ (w.length = 4 ∧ |w.sum - 1| ≤ 1/100) →
      (update_order_generation_settings t (some w) oi).1 = t ∧
      (update_order_generation_settings t (some w) oi).2.isSome = true) ∧
    (i < 1 →
      (update_order_generation_settings t ow (some i)).1.interval = t.interval ∧
      (update_order_generation_settings t ow (some i)).2.isSome = true) ∧
    (¬ (0 ≤ mw ∧ mw ≤ 1) →
      update_user_generation_settings u (some mw) oi =
        (u, some "male_weight must be between 0.0 and 1.0")) ∧
    (i < 1 →
      (update_user_generation_settings u omw (some i)).1.interval = u.interval ∧
      (update_user_generation_settings u omw (some i)).2.isSome = true) := by
  refine ⟨?_, ?_, ?_, ?_, ?_, ?_⟩
  · intro h
    by_cases hl : w.length = 3
    · have hs : (100 : ℚ)⁻¹ < |w.sum - 1| := by
        have := lt_of_not_le (fun hc => h ⟨hl, hc⟩)
        rwa [one_div] at this
      simp [update_subscription_generation_settings, hl, hs]
    · simp [update_subscription_generation_settings, hl]
  · intro hi
    cases ow with
    | none => simp [update_subscription_generation_settings, hi]
    | some w' =>
        by_cases hl : w'.length = 3
        · by_cases hs : (100 : ℚ)⁻¹ < |w'.sum - 1|
          · simp [update_subscription_generation_settings, hl, hs]
          · simp [update_subscription_generation_settings, hl, hs, hi]
        · simp [update_subscription_generation_settings, hl]
  · intro h
    by_cases hl : w.length = 4
    · have hs : (100 : ℚ)⁻¹ < |w.sum - 1| := by
        have := lt_of_not_le (fun hc => h ⟨hl, hc⟩)
        rwa [one_div] at this
      simp [update_order_generation_settings, hl, hs]
    · simp [update_order_generation_settings, hl]
  · intro hi
    cases ow with
    | none => simp [update_order_generation_settings, hi]
    | some w' =>
        by_cases hl : w'.length = 4
        · by_cases hs : (100 : ℚ)⁻¹ < |w'.sum - 1|
          · simp [update_order_generation_settings, hl, hs]
          · simp [update_order_generation_settings, hl, hs, hi]
        · simp [update_order_generation_settings, hl]
  · intro h
    simp [update_user_generation_settings, h]
  · intro hi
    cases omw with
    | none => simp [update_user_generation_settings, hi]
    | some mw' =>
        by_cases hm : 0 ≤ mw' ∧ mw' ≤ 1
        · simp [update_user_generation_settings, hm, hi]
        · simp [update_user_generation_settings, hm]

/-- **C3** witness: the amended theorem applied at concrete inputs — an
invalid weight vector `[1, 1, 1]` (sum 3), an invalid `male_weight = 2`,
and an invalid interval `0` — discharging every hypothesis. -/
theorem settings_update_invalid_field_never_applied_witness :
    ((update_subscription_generation_settings subscriptionSettingsDefault
        (some [1, 1, 1]) none).1 = subscriptionSettingsDefault ∧
      (update_subscription_generation_settings subscriptionSettingsDefault
        (some [1, 1, 1]) none).2.isSome = true) ∧
    ((update_subscription_generation_settings subscriptionSettingsDefault
        none (some 0)).1.interval = subscriptionSettingsDefault.interval ∧
      (update_subscription_generation_settings subscriptionSettingsDefault
        none (some 0)).2.isSome = true) ∧
    ((update_order_generation_settings orderSettingsDefault
        (some [1, 1, 1]) none).1 = orderSettingsDefault ∧
      (update_order_generation_settings orderSettingsDefault
        (some [1, 1, 1]) none).2.isSome = true) ∧
    ((update_order_generation_settings orderSettingsDefault
        none (some 0)).1.interval = orderSettingsDefault.interval ∧
      (update_order_generation_settings orderSettingsDefault
        none (some 0)).2.isSome = true) ∧
    update_user_generation_settings userSettingsDefault (some 2) none =
      (userSettingsDefault, some "male_weight must be between 0.0 and 1.0") ∧
    ((update_user_generation_settings userSettingsDefault
        none (some 0)).1.interval = userSettingsDefault.interval ∧
      (update_user_generation_settings userSettingsDefault
        none (some 0)).2.isSome = true) := by
  have hw3 : ¬ (([1, 1, 1] : List ℚ).length = 3 ∧ |([1, 1, 1] : List ℚ).sum - 1| ≤ 1/100) := by
    intro hc
    have h2 := hc.2
    rw [show ([1, 1, 1] : List ℚ).sum - 1 = 2 by norm_num [List.sum_cons]] at h2
    rw [abs_of_pos (by norm_num : (0 : ℚ) < 2)] at h2
    norm_num at h2
  have hw4 : ¬ (([1, 1, 1] : List ℚ).length = 4 ∧ |([1, 1, 1] : List ℚ).sum - 1| ≤ 1/100) :=
    fun hc => absurd hc.1 (by decide)
  have hmw : ¬ ((0 : ℚ) ≤ 2 ∧ (2 : ℚ) ≤ 1) := by norm_num
  have h := settings_update_invalid_field_never_applied
    subscriptionSettingsDefault orderSettingsDefault userSettingsDefault
    [1, 1, 1] none 2 none 0 none
  exact ⟨h.1 hw3, h.2.1 (by norm_num), h.2.2.1 hw4,
    h.2.2.2.1 (by norm_num), h.2.2.2.2.1 hmw, h.2.2.2.2.2 (by norm_num)⟩

/-- **C5** (confirmed): updating the order settings with any valid weight
vector (length 4, sum within `0.01` of `1.0`) succeeds and a subsequent
`get` returns exactly that vector; updating only the interval to `30`
makes a subsequent `get` return interval `30` with the weight vector
untouched. -/
theorem order_settings_update_get_round_trip
    (s : OrderGenSettings) (w : List ℚ)
    (hlen : w.length = 4) (hsum : |w.sum - 1| ≤ 1/100) :
    update_order_generation_settings s (some w) none =
      ({ s with status_weights := w }, none) ∧
    (get_order_generation_settings
      (update_order_generation_settings s (some w) none).1).status_weights = w ∧
    (update_order_generation_settings s none (some 30)).2 = none ∧
    (get_order_generation_settings
      (update_order_generation_settings s none (some 30)).1).interval = 30 ∧
    (get_order_generation_settings
      (update_order_generation_settings s none (some 30)).1).status_weights =
      s.status_weights := by
  have hsum2 : ¬ ((100 : ℚ)⁻¹ < |w.sum - 1|) := by
    rw [← one_div]
    exact not_lt.2 hsum
  refine ⟨?_, ?_, ?_, ?_, ?_⟩ <;>
    simp [update_order_generation_settings, get_order_generation_settings, hlen, hsum2]

/-- **C5** witness: the round-trip theorem at the default order settings
and the valid vector `[1/4, 1/4, 1/4, 1/4]`. -/
theorem order_settings_update_get_round_trip_witness :
    update_order_generation_settings orderSettingsDefault
        (some [1/4, 1/4, 1/4, 1/4]) none =
      ({ orderSettingsDefault with status_weights := [1/4, 1/4, 1/4, 1/4] }, none) ∧
    (get_order_generation_settings
      (update_order_generation_settings orderSettingsDefault
        (some [1/4, 1/4, 1/4, 1/4]) none).1).status_weights = [1/4, 1/4, 1/4, 1/4] ∧
    (update_order_generation_settings orderSettingsDefault none (some 30)).2 = none ∧
    (get_order_generation_settings
      (update_order_generation_settings orderSettingsDefault none (some 30)).1).interval = 30 ∧
    (get_order_generation_settings
      (update_order_generation_settings orderSettingsDefault none (some 30)).1).status_weights =
      orderSettingsDefault.status_weights := by
  have hsum : |([1/4, 1/4, 1/4, 1/4] : List ℚ).sum - 1| ≤ 1/100 := by
    rw [show ([1/4, 1/4, 1/4, 1/4] : List ℚ).sum - 1 = 0 by norm_num [List.sum_cons], abs_zero]
    norm_num
  have h := order_settings_update_get_round_trip orderSettingsDefault
    [1/4, 1/4, 1/4, 1/4] (by decide) hsum
  exact ⟨h.1, h.2.1, h.2.2.1, h.2.2.2.1, h.2.2.2.2⟩

/-- One `_create_delivery` call preserves pairwise-distinct `order_id`
values among stored deliveries: the pre-check skips orders that already
have one, and the unique-column backstop refuses the insert otherwise. -/
theorem create_delivery_preserves_order_id_nodup
    (db : Db) (o : OrderRow) (r : DRand)
    (h : (db.deliveries.map (fun d => d.order_id)).Nodup) :
    (((_create_delivery db o r).1).deliveries.map (fun d => d.order_id)).Nodup := by
  unfold _create_delivery get_by_order_id
  cases hf : db.deliveries.find? (fun d => d.order_id == o.id) with
  | some d => simpa using h
  | none =>
      have hnone : ∀ d ∈ db.deliveries, d.order_id ≠ o.id := by
        intro d hd
        have := List.find?_eq_none.mp hf d hd
        simpa using this
      have hany : db.deliveries.any (fun d => d.order_id == o.id) = false := by
        rw [List.any_eq_false]
        intro d hd
        simpa using hnone d hd
      simp only [hany, Bool.false_eq_true, if_false, List.map_append,
        List.map_cons, List.map_nil]
      refine h.append (List.nodup_singleton _) ?_
      rw [List.disjoint_singleton]
      intro hmem
      obtain ⟨d, hd, hEq⟩ := List.mem_map.mp hmem
      exact hnone d hd hEq

theorem processDeliveries_preserves_order_id_nodup :
    ∀ (orders : List OrderRow) (db : Db) (rnd : ℕ → DRand) (k : ℕ),
      (db.deliveries.map (fun d => d.order_id)).Nodup →
      (((processDeliveries db orders rnd k).1).deliveries.map (fun d => d.order_id)).Nodup
  | [], db, rnd, k, h => by simpa [processDeliveries] using h
  | o :: rest, db, rnd, k, h => by
      have h1 := create_delivery_preserves_order_id_nodup db o (rnd k) h
      have h2 := processDeliveries_preserves_order_id_nodup rest
        (_create_delivery db o (rnd k)).1 rnd (k + 1) h1
      simpa [processDeliveries] using h2

/-- **C4** (confirmed): starting from any store in which no two deliveries
reference the same order, a delivery-generation tick — whatever its count,
sampling and random draws — leaves the store with at most one delivery per
order id: the pre-check skips orders that already have a delivery and the
store's uniqueness constraint is the backstop within the tick. -/
theorem delivery_generation_preserves_order_id_uniqueness
    (cfg : GenConfig) (db : Db) (rnd : ℕ → DRand) (samplePick : ℕ → ℕ)
    (h : (db.deliveries.map (fun d => d.order_id)).Nodup) :
    (((generate_deliveries_task cfg db rnd samplePick).db).deliveries.map
      (fun d => d.order_id)).Nodup := by
  by_cases h1 : (db.orders.take 1000).isEmpty
  · simpa [generate_deliveries_task, h1] using h
  · by_cases h2 : ((db.orders.take 1000).filter
        (fun o => (get_by_order_id db o.id).isNone)).isEmpty
    · simpa [generate_deliveries_task, h1, h2] using h
    · by_cases h3 : min cfg.count
          ((((db.orders.take 1000).filter
            (fun o => (get_by_order_id db o.id).isNone)).length : ℕ) : ℤ) < 0
      · simpa [generate_deliveries_task, h1, h2, h3] using h
      · have h4 := processDeliveries_preserves_order_id_nodup
          (drawSample default
            ((db.orders.take 1000).filter (fun o => (get_by_order_id db o.id).isNone))
            (min cfg.count
              ((((db.orders.take 1000).filter
                (fun o => (get_by_order_id db o.id).isNone)).length : ℕ) : ℤ)).toNat
            samplePick)
          db rnd 0 h
        simpa [generate_deliveries_task, h1, h2, h3] using h4

/-- **C4** witness: one stored order, no deliveries — the hypothesis holds
and the theorem yields uniqueness after the tick. -/
theorem delivery_generation_preserves_order_id_uniqueness_witness :
    (dbOneOrder.deliveries.map (fun d => d.order_id)).Nodup ∧
    (((generate_deliveries_task { enabled := true, count := 1 } dbOneOrder
        (fun _ => drand0) (fun _ => 0)).db).deliveries.map
      (fun d => d.order_id)).Nodup :=
  ⟨by simp [dbOneOrder],
    delivery_generation_preserves_order_id_uniqueness
      { enabled := true, count := 1 } dbOneOrder (fun _ => drand0) (fun _ => 0)
      (by simp [dbOneOrder])⟩

/-- **C6** (counterexample): the claim says every kind's tick creates no
records when that kind is disabled.  The subscription task body never
reads its enabled flag: with a disabled config, count 3 and one stored
user, the tick still attempts — and performs — 3 subscription creations. -/
theorem subscription_tick_ignores_disabled_flag_counterexample :
    (generate_subscriptions_task { enabled := false, count := 3 }
      subscriptionSettingsDefault dbOneUser 0 (fun _ => srand0)).attempted = 3 ∧
    (generate_subscriptions_task { enabled := false, count := 3 }
      subscriptionSettingsDefault dbOneUser 0 (fun _ => srand0)).created = 3 ∧
    ((generate_subscriptions_task { enabled := false, count := 3 }
      subscriptionSettingsDefault dbOneUser 0 (fun _ => srand0)).db).subscriptions.length = 3 := by
  refine ⟨rfl, rfl, rfl⟩

/-- **C6** (amended): the user, recipe and order ticks return immediately
with no records when disabled or when the count is non-positive, and
attempt exactly `count` creations when enabled with a positive count (the
order tick additionally requiring its prerequisites); the subscription and
delivery ticks, however, have no enabled guard at all — their behavior is
identical under an enabled and a disabled config, and a subscription tick
with users available attempts exactly `count` creations regardless of the
flag (its only protection against a non-positive count being the empty
`range`). -/
theorem generation_tick_guard_amended :
    (∀ (us : UserGenSettings) (db : Db) (rnd : ℕ → URand) (e : Bool) (c : ℤ),
      (e = false ∨ c ≤ 0) →
        generate_users_task { enabled := e, count := c } us db rnd =
          { db := db, attempted := 0, created := 0, warnings := [], exc := none }) ∧
    (∀ (us : UserGenSettings) (db : Db) (rnd : ℕ → URand) (c : ℤ),
      0 < c →
        (generate_users_task { enabled := true, count := c } us db rnd).attempted = c.toNat) ∧
    (∀ (db : Db) (rnd : ℕ → RRand) (e : Bool) (c : ℤ),
      (e = false ∨ c ≤ 0) →
        generate_recipes_task { enabled := e, count := c } db rnd =
          { db := db, attempted := 0, created := 0, warnings := [], exc := none }) ∧
    (∀ (db : Db) (rnd : ℕ → RRand) (c : ℤ),
      0 < c →
        (generate_recipes_task { enabled := true, count := c } db rnd).attempted = c.toNat) ∧
    (∀ (os : OrderGenSettings) (db : Db) (now : ℤ) (rnd : ℕ → ORand) (e : Bool) (c : ℤ),
      (e = false ∨ c ≤ 0) →
        generate_orders_task { enabled := e, count := c } os db now rnd =
          { db := db, attempted := 0, created := 0, warnings := [], exc := none }) ∧
    (∀ (os : OrderGenSettings) (db : Db) (now : ℤ) (rnd : ℕ → ORand) (c : ℤ),
      0 < c →
        ((db.subscriptions.filter (fun s => s.status == "Active")).take 1000).isEmpty = false →
        (db.recipes.take 1000).isEmpty = false →
        (generate_orders_task { enabled := true, count := c } os db now rnd).attempted = c.toNat) ∧
    (∀ (ss : SubscriptionGenSettings) (db : Db) (now : ℤ) (rnd : ℕ → SRand) (c : ℤ),
      generate_subscriptions_task { enabled := true, count := c } ss db now rnd =
        generate_subscriptions_task { enabled := false, count := c } ss db now rnd) ∧
    (∀ (ss : SubscriptionGenSettings) (db : Db) (now : ℤ) (rnd : ℕ → SRand) (e : Bool) (c : ℤ),
      (db.users.take 1000).isEmpty = false →
        (generate_subscriptions_task { enabled := e, count := c } ss db now rnd).attempted = c.toNat) ∧
    (∀ (db : Db) (rnd : ℕ → DRand) (samplePick : ℕ → ℕ) (c : ℤ),
      generate_deliveries_task { enabled := true, count := c } db rnd samplePick =
        generate_deliveries_task { enabled := false, count := c } db rnd samplePick) := by
  refine ⟨?_, ?_, ?_, ?_, ?_, ?_, ?_, ?_, ?_⟩
  · rintro us db rnd e c (he | hc)
    · simp [generate_users_task, he]
    · simp [generate_users_task, hc]
  · intro us db rnd c hc
    simp [generate_users_task, not_le.mpr hc]
  · rintro db rnd e c (he | hc)
    · simp [generate_recipes_task, he]
    · simp [generate_recipes_task, hc]
  · intro db rnd c hc
    simp [generate_recipes_task, not_le.mpr hc]
  · rintro os db now rnd e c (he | hc)
    · simp [generate_orders_task, he]
    · simp [generate_orders_task, hc]
  · intro os db now rnd c hc h1 h2
    simp [generate_orders_task, not_le.mpr hc, h1, h2]
  · intro ss db now rnd c
    rfl
  · intro ss db now rnd e c hne
    simp [generate_subscriptions_task, hne]
  · intro db rnd samplePick c
    rfl

/-- **C6** witness: the amended theorem instantiated — disabled and
zero-count no-ops for user, recipe and order; attempted counts for
enabled positive counts; and flag-independence of the subscription and
delivery ticks — with every hypothesis discharged concretely. -/
theorem generation_tick_guard_amended_witness :
    generate_users_task { enabled := false, count := 3 } userSettingsDefault
        dbOneUser (fun _ => urand0) =
      { db := dbOneUser, attempted := 0, created := 0, warnings := [], exc := none } ∧
    (generate_users_task { enabled := true, count := 2 } userSettingsDefault
        dbOneUser (fun _ => urand0)).attempted = (2 : ℤ).toNat ∧
    generate_recipes_task { enabled := true, count := 0 } dbOneUser
        (fun _ => rrand0) =
      { db := dbOneUser, attempted := 0, created := 0, warnings := [], exc := none } ∧
    (generate_recipes_task { enabled := true, count := 2 } dbOneUser
        (fun _ => rrand0)).attempted = (2 : ℤ).toNat ∧
    generate_orders_task { enabled := false, count := 3 } orderSettingsDefault
        dbScenarioB 0 (fun _ => orandB) =
      { db := dbScenarioB, attempted := 0, created := 0, warnings := [], exc := none } ∧
    (generate_orders_task { enabled := true, count := 1 } orderSettingsDefault
        dbScenarioB 0 (fun _ => orandB)).attempted = (1 : ℤ).toNat ∧
    generate_subscriptions_task { enabled := true, count := 3 }
        subscriptionSettingsDefault dbOneUser 0 (fun _ => srand0) =
      generate_subscriptions_task { enabled := false, count := 3 }
        subscriptionSettingsDefault dbOneUser 0 (fun _ => srand0) ∧
    (generate_subscriptions_task { enabled := false, count := 3 }
        subscriptionSettingsDefault dbOneUser 0 (fun _ => srand0)).attempted = (3 : ℤ).toNat ∧
    generate_deliveries_task { enabled := true, count := 1 } dbOneOrder
        (fun _ => drand0) (fun _ => 0) =
      generate_deliveries_task { enabled := false, count := 1 } dbOneOrder
        (fun _ => drand0) (fun _ => 0) := by
  have h := generation_tick_guard_amended
  refine ⟨h.1 userSettingsDefault dbOneUser (fun _ => urand0) false 3 (Or.inl rfl),
    h.2.1 userSettingsDefault dbOneUser (fun _ => urand0) 2 (by norm_num),
    h.2.2.1 dbOneUser (fun _ => rrand0) true 0 (Or.inr (by norm_num)),
    h.2.2.2.1 dbOneUser (fun _ => rrand0) 2 (by norm_num),
    h.2.2.2.2.1 orderSettingsDefault dbScenarioB 0 (fun _ => orandB) false 3 (Or.inl rfl),
    h.2.2.2.2.2.1 orderSettingsDefault dbScenarioB 0 (fun _ => orandB) 1 (by norm_num) rfl rfl,
    h.2.2.2.2.2.2.1 subscriptionSettingsDefault dbOneUser 0 (fun _ => srand0) 3,
    h.2.2.2.2.2.2.2.1 subscriptionSettingsDefault dbOneUser 0 (fun _ => srand0) false 3 rfl,
    h.2.2.2.2.2.2.2.2 dbOneOrder (fun _ => drand0) (fun _ => 0) 1⟩

/-- **C7** (confirmed): when a generator's prerequisite data is absent —
no users for the subscription tick; no Active subscription, or no recipe,
for the order tick; no order, or no order lacking a delivery, for the
delivery tick — the tick creates nothing, logs exactly the corresponding
warning, and raises no exception. -/
theorem precondition_not_met_zero_records_warning_no_exception :
    (∀ (cfg : GenConfig) (ss : SubscriptionGenSettings) (db : Db) (now : ℤ)
        (rnd : ℕ → SRand),
      (db.users.take 1000).isEmpty = true →
        generate_subscriptions_task cfg ss db now rnd =
          { db := db, attempted := 0, created := 0,
            warnings := ["No users found. Skipping subscription generation."],
            exc := none }) ∧
    (∀ (cfg : GenConfig) (os : OrderGenSettings) (db : Db) (now : ℤ)
        (rnd : ℕ → ORand),
      cfg.enabled = true → 0 < cfg.count →
      ((db.subscriptions.filter (fun s => s.status == "Active")).take 1000).isEmpty = true →
        generate_orders_task cfg os db now rnd =
          { db := db, attempted := 0, created := 0,
            warnings := ["No active subscriptions found. Skipping order generation."],
            exc := none }) ∧
    (∀ (cfg : GenConfig) (os : OrderGenSettings) (db : Db) (now : ℤ)
        (rnd : ℕ → ORand),
      cfg.enabled = true → 0 < cfg.count →
      ((db.subscriptions.filter (fun s => s.status == "Active")).take 1000).isEmpty = false →
      (db.recipes.take 1000).isEmpty = true →
        generate_orders_task cfg os db now rnd =
          { db := db, attempted := 0, created := 0,
            warnings := ["No recipes found. Skipping order generation."],
            exc := none }) ∧
    (∀ (cfg : GenConfig) (db : Db) (rnd : ℕ → DRand) (samplePick : ℕ → ℕ),
      (db.orders.take 1000).isEmpty = true →
        generate_deliveries_task cfg db rnd samplePick =
          { db := db, attempted := 0, created := 0,
            warnings := ["No orders found. Skipping delivery generation."],
            exc := none }) ∧
    (∀ (cfg : GenConfig) (db : Db) (rnd : ℕ → DRand) (samplePick : ℕ → ℕ),
      (db.orders.take 1000).isEmpty = false →
      ((db.orders.take 1000).filter
        (fun o => (get_by_order_id db o.id).isNone)).isEmpty = true →
        generate_deliveries_task cfg db rnd samplePick =
          { db := db, attempted := 0, created := 0,
            warnings := ["All orders already have deliveries. Skipping delivery generation."],
            exc := none }) := by
  refine ⟨?_, ?_, ?_, ?_, ?_⟩
  · intro cfg ss db now rnd h1
    simp [generate_subscriptions_task, h1]
  · intro cfg os db now rnd he hc h1
    simp [generate_orders_task, he, not_le.mpr hc, h1]
  · intro cfg os db now rnd he hc h1 h2
    simp [generate_orders_task, he, not_le.mpr hc, h1, h2]
  · intro cfg db rnd samplePick h1
    simp [generate_deliveries_task, h1]
  · intro cfg db rnd samplePick h1 h2
    simp [generate_deliveries_task, h1, h2]

/-- **C7** witness: the precondition theorem at concrete stores — no
users, no Active subscription, no recipe, no order, and an order that
already has its delivery. -/
theorem precondition_not_met_zero_records_warning_no_exception_witness :
    generate_subscriptions_task { enabled := true, count := 5 }
        subscriptionSettingsDefault dbOneOrder 0 (fun _ => srand0) =
      { db := dbOneOrder, attempted := 0, created := 0,
        warnings := ["No users found. Skipping subscription generation."],
        exc := none } ∧
    generate_orders_task { enabled := true, count := 5 } orderSettingsDefault
        dbOneUser 0 (fun _ => orandB) =
      { db := dbOneUser, attempted := 0, created := 0,
        warnings := ["No active subscriptions found. Skipping order generation."],
        exc := none } ∧
    generate_orders_task { enabled := true, count := 5 } orderSettingsDefault
        dbActiveNoRecipes 0 (fun _ => orandB) =
      { db := dbActiveNoRecipes, attempted := 0, created := 0,
        warnings := ["No recipes found. Skipping order generation."],
        exc := none } ∧
    generate_deliveries_task { enabled := true, count := 5 } dbOneUser
        (fun _ => drand0) (fun _ => 0) =
      { db := dbOneUser, attempted := 0, created := 0,
        warnings := ["No orders found. Skipping delivery generation."],
        exc := none } ∧
    generate_deliveries_task { enabled := true, count := 5 } dbOrderDelivered
        (fun _ => drand0) (fun _ => 0) =
      { db := dbOrderDelivered, attempted := 0, created := 0,
        warnings := ["All orders already have deliveries. Skipping delivery generation."],
        exc := none } := by
  have h := precondition_not_met_zero_records_warning_no_exception
  exact ⟨h.1 { enabled := true, count := 5 } subscriptionSettingsDefault dbOneOrder 0
      (fun _ => srand0) rfl,
    h.2.1 { enabled := true, count := 5 } orderSettingsDefault dbOneUser 0
      (fun _ => orandB) rfl (by norm_num) rfl,
    h.2.2.1 { enabled := true, count := 5 } orderSettingsDefault dbActiveNoRecipes 0
      (fun _ => orandB) rfl (by norm_num) rfl rfl,
    h.2.2.2.1 { enabled := true, count := 5 } dbOneUser (fun _ => drand0)
      (fun _ => 0) rfl,
    h.2.2.2.2 { enabled := true, count := 5 } dbOrderDelivered (fun _ => drand0)
      (fun _ => 0) rfl rfl⟩

/-- The accumulating fold of `_calculate_total_amount`, with a general
starting accumulator, adds exactly one `priceContrib` per snapshot. -/
theorem raw_total_foldl_aux (recipe_prices : List (ℕ × ℚ)) :
    ∀ (recipes : List RecipeSnapshot) (t : ℚ),
      recipes.foldl
        (fun t rc =>
          match (recipe_prices.find? (fun pr => pr.1 == rc.id)).map Prod.snd with
          | some p => if p ≠ 0 then t + p else t
          | none => t)
        t = t + (recipes.map (priceContrib recipe_prices)).sum
  | [], t => by simp
  | rc :: rest, t => by
      simp only [List.foldl_cons, List.map_cons, List.sum_cons]
      rw [raw_total_foldl_aux recipe_prices rest]
      cases hfind : (recipe_prices.find? (fun pr => pr.1 == rc.id)).map Prod.snd with
      | none => simp [priceContrib, hfind]
      | some p =>
          by_cases hp : p = 0
          · simp [priceContrib, hfind, hp]
          · simp only [priceContrib, hfind, hp, ne_eq, not_false_iff, if_true]
            ring

theorem order_raw_total_eq_contrib_sum (recipes : List RecipeSnapshot)
    (recipe_prices : List (ℕ × ℚ)) :
    _order_raw_total recipes recipe_prices =
      (recipes.map (priceContrib recipe_prices)).sum := by
  unfold _order_raw_total
  rw [raw_total_foldl_aux recipe_prices recipes 0, zero_add]

theorem pricePairOf_fst {rc : RecipeRow} {pr : ℕ × ℚ}
    (h : pricePairOf rc = some pr) : pr.1 = rc.id := by
  unfold pricePairOf at h
  split at h
  · split at h
    · rw [← Option.some.inj h]
    · exact Option.noConfusion h
  · exact Option.noConfusion h

/-- Looking up an id the selection does not contain finds no price entry. -/
theorem find_pricePair_none (l : List RecipeRow) (x : ℕ)
    (hx : x ∉ l.map (fun q => q.id)) :
    (l.filterMap pricePairOf).find? (fun pr => pr.1 == x) = none := by
  rw [List.find?_eq_none]
  intro pr hpr
  obtain ⟨rc, hrc, hmk⟩ := List.mem_filterMap.mp hpr
  have hid : pr.1 = rc.id := pricePairOf_fst hmk
  have hmem : rc.id ∈ l.map (fun q => q.id) := List.mem_map_of_mem _ hrc
  simp only [beq_iff_eq, hid]
  intro hEq
  exact hx (hEq ▸ hmem)

/-- With pairwise-distinct ids, looking a selected recipe's id up in the
price dict yields exactly that recipe's truthy-price entry. -/
theorem find_pricePair_of_mem :
    ∀ (sel : List RecipeRow) (rc : RecipeRow),
      rc ∈ sel → ((sel.map (fun q => q.id)).Nodup) →
      (sel.filterMap pricePairOf).find? (fun pr => pr.1 == rc.id) = pricePairOf rc
  | [], rc, hmem, _ => absurd hmem (List.not_mem_nil rc)
  | a :: rest, rc, hmem, hnd => by
      rw [List.map_cons, List.nodup_cons] at hnd
      rcases List.mem_cons.mp hmem with rfl | hmem'
      · cases hpa : pricePairOf rc with
        | some pr =>
            rw [List.filterMap_cons_some hpa,
              List.find?_cons_of_pos _ (by simp [pricePairOf_fst hpa])]
        | none =>
            rw [List.filterMap_cons_none hpa]
            exact find_pricePair_none rest rc.id hnd.1
      · have hidmem : rc.id ∈ rest.map (fun q => q.id) := List.mem_map_of_mem _ hmem'
        have hne : a.id ≠ rc.id := fun hEq => hnd.1 (hEq ▸ hidmem)
        cases hpa : pricePairOf a with
        | some pr =>
            rw [List.filterMap_cons_some hpa,
              List.find?_cons_of_neg _ (by simp [pricePairOf_fst hpa, hne])]
            exact find_pricePair_of_mem rest rc hmem' hnd.2
        | none =>
            rw [List.filterMap_cons_none hpa]
            exact find_pricePair_of_mem rest rc hmem' hnd.2

/-- With pairwise-distinct ids, a selected recipe's contribution to the
total is its price (zero and absent prices contributing nothing). -/
theorem contrib_eq_price_getD (sel : List RecipeRow) (rc : RecipeRow)
    (hmem : rc ∈ sel) (hnd : (sel.map (fun q => q.id)).Nodup) :
    priceContrib (sel.filterMap pricePairOf) (snapshotOf rc) = rc.price.getD 0 := by
  unfold priceContrib
  have hfind := find_pricePair_of_mem sel rc hmem hnd
  rw [show (snapshotOf rc).id = rc.id from rfl, hfind]
  unfold pricePairOf
  cases hp : rc.price with
  | none => simp
  | some p =>
      by_cases h0 : p = 0
      · simp [h0]
      · simp [h0]

/-- The accumulated raw total over a distinct-id selection equals the sum
of the selection's prices (absent price counted as `0`). -/
theorem raw_total_selected_eq_price_sum (sel : List RecipeRow)
    (hnd : (sel.map (fun q => q.id)).Nodup) :
    _order_raw_total (sel.map snapshotOf) (sel.filterMap pricePairOf) =
      (sel.map (fun rc => rc.price.getD 0)).sum := by
  rw [order_raw_total_eq_contrib_sum, List.map_map]
  congr 1
  rw [List.map_eq_map_iff]
  intro rc hrc
  exact contrib_eq_price_getD sel rc hrc hnd

/-- **C8** (code bug): the claim says every order the order generator
creates carries the sum of the sampled recipes' prices as its total — in
scenario B, an order with total `20.00` and a one-element recipes list.
The generator does compute exactly that amount for the insert (third
conjunct), but `order_repo.create` is called without the non-nullable
`delivery_date` column of `models/order.py` — a column the repository's
own order tests also omit while expecting creation to succeed — so the
insert fails its NOT NULL constraint and every `_create_order` returns
`false` (first conjunct): the scenario-B tick attempts one creation,
creates zero orders, and leaves the store unchanged (second conjunct). -/
theorem order_generator_never_creates_orders :
    (∀ (db : Db) (os : OrderGenSettings) (active : List SubscriptionRow)
        (avail : List RecipeRow) (now : ℤ) (r : ORand),
      _create_order db os active avail now r = (db, false)) ∧
    generate_orders_task { enabled := true, count := 1 } orderSettingsDefault
        dbScenarioB 0 (fun _ => orandB) =
      { db := dbScenarioB, attempted := 1, created := 0, warnings := [],
        exc := none } ∧
    _calculate_total_amount
        ((selectedRecipesOf dbScenarioB.recipes orandB).map snapshotOf)
        ((selectedRecipesOf dbScenarioB.recipes orandB).filterMap pricePairOf)
        orandB.fallbackAmount = 20 := by
  refine ⟨fun db os active avail now r => rfl, rfl, ?_⟩
  norm_num [selectedRecipesOf, drawSample, dbScenarioB, orandB, snapshotOf,
    pricePairOf, _calculate_total_amount, _order_raw_total]

/-- **C9** (counterexample): the claim says the settings `get` returns a
snapshot such that mutating any part of the returned value — including the
contained weight vector — never changes what a later `get` observes.
`dict.copy()` is shallow: the returned dict binds the same weight-vector
list object as the store, so writing through the returned vector changes
what a later `get` observes. -/
theorem get_settings_shallow_copy_aliasing_counterexample :
    (get_order_generation_settings_obj store0).status_weights_ref =
      store0.status_weights_ref ∧
    observe_order_settings
        (heap0.write (get_order_generation_settings_obj store0).status_weights_ref
          [1, 0, 0, 0])
        (get_order_generation_settings_obj store0) = ([1, 0, 0, 0], 30) ∧
    observe_order_settings
        (heap0.write (get_order_generation_settings_obj store0).status_weights_ref
          [1, 0, 0, 0])
        store0 ≠ observe_order_settings heap0 store0 := by
  refine ⟨rfl, rfl, ?_⟩
  norm_num [observe_order_settings, Heap.write, Heap.read, heap0, store0,
    get_order_generation_settings_obj, dict_copy]

/-- **C9** (amended): the `get` really does return a copy of the settings
dict — its fields equal the store's, mutating any list the store's vector
reference does not point to leaves a later observation unchanged, and
growing the heap leaves it unchanged — but the copy is shallow: the
returned dict's weight vector is the same list object as the store's
(first conjunct), so only the user kind's scalar-only snapshot (last
conjunct) is fully independent of the store. -/
theorem get_settings_copy_frame_amended
    (h : Heap) (store : OrderSettingsObj) (v : List ℚ) (r : ℕ)
    (hr : r ≠ store.status_weights_ref)
    (hs : store.status_weights_ref < h.cells.length) :
    (get_order_generation_settings_obj store).status_weights_ref =
      store.status_weights_ref ∧
    (get_order_generation_settings_obj store).interval = store.interval ∧
    observe_order_settings (h.write r v) store = observe_order_settings h store ∧
    observe_order_settings (h.alloc v).1 store = observe_order_settings h store ∧
    (∀ s : UserGenSettings, get_user_generation_settings s =
      { male_weight := s.male_weight, female_weight := 1 - s.male_weight,
        interval := s.interval }) := by
  refine ⟨rfl, rfl, ?_, ?_, fun s => rfl⟩
  · unfold observe_order_settings Heap.write Heap.read
    simp only [Prod.mk.injEq, and_true]
    rw [List.getD_eq_getD_get?, List.getD_eq_getD_get?, List.get?_eq_getElem?,
      List.get?_eq_getElem?, List.getElem?_set_ne hr]
  · unfold observe_order_settings Heap.alloc Heap.read
    simp only [Prod.mk.injEq, and_true]
    exact List.getD_append _ _ _ _ hs

/-- **C9** witness: the amended frame theorem at the concrete heap and
store of the counterexample, writing a fresh vector at the unused
reference `1`. -/
theorem get_settings_copy_frame_amended_witness :
    (get_order_generation_settings_obj store0).status_weights_ref =
      store0.status_weights_ref ∧
    (get_order_generation_settings_obj store0).interval = store0.interval ∧
    observe_order_settings (heap0.write 1 [1, 0, 0, 0]) store0 =
      observe_order_settings heap0 store0 ∧
    observe_order_settings (heap0.alloc [1, 0, 0, 0]).1 store0 =
      observe_order_settings heap0 store0 ∧
    (∀ s : UserGenSettings, get_user_generation_settings s =
      { male_weight := s.male_weight, female_weight := 1 - s.male_weight,
        interval := s.interval }) :=
  get_settings_copy_frame_amended heap0 store0 [1, 0, 0, 0] 1
    (by decide) (by decide)

/-- **C10** (confirmed): in the order total computation a sampled recipe
whose looked-up price is absent or `0` contributes nothing to the
accumulated total; whenever the accumulated total is exactly `0` — in
particular when every sampled recipe exists but is priced `0`, since
zero-priced recipes never enter the price dict — the total is replaced by
the random fallback drawn from `[20.00, 100.00]`; consequently, with
non-negative stored prices, every generated order's total amount is
strictly positive. -/
theorem calculate_total_amount_zero_fallback_positive
    (recipes : List RecipeSnapshot) (recipe_prices : List (ℕ × ℚ)) (fb : ℚ)
    (hfb : 20 ≤ fb ∧ fb ≤ 100)
    (hp : ∀ pr ∈ recipe_prices, 0 ≤ pr.2) :
    (∀ rc : RecipeSnapshot,
      ((recipe_prices.find? (fun pr => pr.1 == rc.id)) = none ∨
        ((recipe_prices.find? (fun pr => pr.1 == rc.id)).map Prod.snd) = some 0) →
      _order_raw_total (rc :: recipes) recipe_prices =
        _order_raw_total recipes recipe_prices) ∧
    (_order_raw_total recipes recipe_prices = 0 →
      _calculate_total_amount recipes recipe_prices fb = fb) ∧
    0 < _calculate_total_amount recipes recipe_prices fb := by
  have hcontrib_nonneg : ∀ rc : RecipeSnapshot, 0 ≤ priceContrib recipe_prices rc := by
    intro rc
    unfold priceContrib
    cases hfind : (recipe_prices.find? (fun pr => pr.1 == rc.id)) with
    | none => simp
    | some pr =>
        have hpr : 0 ≤ pr.2 := hp pr (List.mem_of_find?_eq_some hfind)
        by_cases h0 : pr.2 = 0
        · simp [h0]
        · simp [h0, hpr]
  have hraw_nonneg : 0 ≤ _order_raw_total recipes recipe_prices := by
    rw [order_raw_total_eq_contrib_sum]
    refine List.sum_nonneg ?_
    intro x hx
    obtain ⟨rc, _, rfl⟩ := List.mem_map.mp hx
    exact hcontrib_nonneg rc
  refine ⟨?_, ?_, ?_⟩
  · intro rc hrc
    rw [order_raw_total_eq_contrib_sum, order_raw_total_eq_contrib_sum,
      List.map_cons, List.sum_cons]
    have hzero : priceContrib recipe_prices rc = 0 := by
      unfold priceContrib
      rcases hrc with hnone | hzero
      · rw [hnone]
        rfl
      · rw [hzero]
        simp
    rw [hzero, zero_add]
  · intro hz
    unfold _calculate_total_amount
    rw [if_pos hz]
  · unfold _calculate_total_amount
    by_cases hz : _order_raw_total recipes recipe_prices = 0
    · rw [if_pos hz]
      linarith [hfb.1]
    · rw [if_neg hz]
      exact lt_of_le_of_ne hraw_nonneg (Ne.symm hz)

/-- **C10** witness: one sampled recipe snapshot with an empty price dict
(a zero-priced recipe never enters the dict), fallback `50`: the dict
lookup contributes nothing, the zero total is replaced by the fallback,
and the resulting total is strictly positive. -/
theorem calculate_total_amount_zero_fallback_positive_witness :
    _order_raw_total [{ id := 1, name := "Pasta Carbonara" }] [] = 0 ∧
    _calculate_total_amount [{ id := 1, name := "Pasta Carbonara" }] [] 50 = 50 ∧
    (0 : ℚ) < _calculate_total_amount [{ id := 1, name := "Pasta Carbonara" }] [] 50 := by
  have h := calculate_total_amount_zero_fallback_positive
    [{ id := 1, name := "Pasta Carbonara" }] [] 50
    (by constructor <;> norm_num) (by intro pr hpr; exact absurd hpr (List.not_mem_nil pr))
  exact ⟨rfl, h.2.1 rfl, h.2.2⟩

end ChefbotSim
